import Mathlib

/-!
# Verification of the egismoc fingerprint driver core

Shallow embedding of `src/libfprint/drivers/egismoc/egismoc.c` (Egis
Technology match-on-chip driver).  Bytes are modelled as `Nat` (values kept
below 256 where it matters, with explicit `% 256` where the C code performs
an implicit narrowing conversion).  Buffers are `List Nat`.

The header `egismoc.h` is not part of the sources; the numeric constants it
defines (`egismoc_read_prefix_len`, `EGISMOC_CHECK_BYTES_LENGTH`,
`EGISMOC_FINGERPRINT_DATA_SIZE`, `EGISMOC_MAX_ENROLL_NUM`,
`EGISMOC_CMD_CHECK_SEPARATOR_LENGTH` and the write-prefix byte table) are
modelled from the spec, which pins their values; the opaque command /
response marker byte tables are kept as parameters of the definitions that
use them.
-/

namespace Egismoc

/-- Modelled from the spec: the 8-byte write prefix
`'E' 'G' 'I' 'S' 00 00 00 01` (constant `egismoc_write_prefix` of the
missing header `egismoc.h`; the spec gives its bytes verbatim). -/
def egismoc_write_prefix : List Nat := [0x45, 0x47, 0x49, 0x53, 0x00, 0x00, 0x00, 0x01]

/-- Modelled from the spec: length of the fixed device-side read header
(constant `egismoc_read_prefix_len` of the missing header; the spec says
"a fixed 6-byte header"). -/
def egismoc_read_prefix_len : Nat := 6

/-- Modelled from the spec: the check field is 2 bytes
(`EGISMOC_CHECK_BYTES_LENGTH` of the missing header). -/
def EGISMOC_CHECK_BYTES_LENGTH : Nat := 2

/-- Modelled from the spec: a PrintId is exactly 32 bytes
(`EGISMOC_FINGERPRINT_DATA_SIZE` of the missing header). -/
def EGISMOC_FINGERPRINT_DATA_SIZE : Nat := 32

/-- Modelled from the spec: maximum number of enrolled prints is 10
(`EGISMOC_MAX_ENROLL_NUM` of the missing header). -/
def EGISMOC_MAX_ENROLL_NUM : Nat := 10

/-- Modelled from the spec: the check command contains a 32-byte all-zero
sentinel slot (`EGISMOC_CMD_CHECK_SEPARATOR_LENGTH` of the missing header). -/
def EGISMOC_CMD_CHECK_SEPARATOR_LENGTH : Nat := 32

/-!
## Frame codec: `egismoc_get_check_bytes` / `egismoc_compose_cmd`
-/

/-- The 16-bit word sum computed by the first loop of
`egismoc_get_check_bytes`: bytes are paired as little-endian 16-bit words
(low byte at the even offset); an odd-length buffer is padded with a zero
high byte.  Mirrors `value_bigendian_shorts[s] = (value[i+1] << 8) | value[i]`
followed by `sum_shorts += ...`. -/
def wordSum : List Nat → Nat
  | [] => 0
  | [a] => a
  | a :: b :: rest => (a + 256 * b) + wordSum rest

/-- The 16-bit value `check_short = 0xffff - (sum_shorts % 0xffff)` computed
by `egismoc_get_check_bytes`. -/
def egismoc_check_short (value : List Nat) : Nat :=
  0xffff - wordSum value % 0xffff

/-- `egismoc_get_check_bytes`: returns the two check bytes.  The C code
splits the 16-bit `check_short` through its in-memory representation; the
spec pins the byte order as little endian (low byte first). -/
def egismoc_get_check_bytes (value : List Nat) : List Nat :=
  [egismoc_check_short value % 256, egismoc_check_short value / 256]

/-- `egismoc_compose_cmd`: builds `write_prefix ++ check_bytes ++ body`,
where the check bytes are computed over the same frame with the two check
slots still zero (the buffer is allocated zeroed and the body copied at
offset `egismoc_write_prefix_len + EGISMOC_CHECK_BYTES_LENGTH`). -/
def egismoc_compose_cmd (cmd : List Nat) : List Nat :=
  egismoc_write_prefix
    ++ egismoc_get_check_bytes ( egismoc_write_prefix ++ [0x00, 0x00] ++ cmd)
    ++ cmd

theorem wordSum_cons_cons (a b : Nat) (l : List Nat) :
    wordSum (a :: b :: l) = (a + 256 * b) + wordSum l := rfl

/-- Key modular fact: adding `0xFFFF - (s % 0xFFFF)` to `s` yields a
multiple of `0xFFFF`. -/
theorem add_check_mod (s : Nat) : (s + (0xffff - s % 0xffff)) % 0xffff = 0 := by
  omega

/-- C1: `compose(B)` has length `10 + len(B)`, starts with the 8-byte write
prefix, carries `B` at offset 10, its check field's little-endian value is
`0xFFFF − (wordsum_without_check mod 0xFFFF)`, and the 16-bit word-sum of
the complete composed frame is congruent to 0 mod 0xFFFF. -/
theorem compose_cmd_spec (B : List Nat) :
    (egismoc_compose_cmd B).length = 10 + B.length ∧
    (egismoc_compose_cmd B).take 8 = egismoc_write_prefix ∧
    (egismoc_compose_cmd B).drop 10 = B ∧
    (egismoc_compose_cmd B).getD 8 0 + 256 * ((egismoc_compose_cmd B).getD 9 0)
      = 0xffff - wordSum ( egismoc_write_prefix ++ [0x00, 0x00] ++ B) % 0xffff ∧
    wordSum (egismoc_compose_cmd B) % 0xffff = 0 := by
  refine ⟨?_, ?_, ?_, ?_, ?_⟩
  · simp [egismoc_compose_cmd, egismoc_get_check_bytes, egismoc_write_prefix]
    omega
  · simp [egismoc_compose_cmd, egismoc_get_check_bytes, egismoc_write_prefix]
  · simp [egismoc_compose_cmd, egismoc_get_check_bytes, egismoc_write_prefix]
  · simp [egismoc_compose_cmd, egismoc_get_check_bytes, egismoc_check_short,
      egismoc_write_prefix, wordSum]
    omega
  · simp [egismoc_compose_cmd, egismoc_get_check_bytes, egismoc_check_short,
      egismoc_write_prefix, wordSum]
    omega

/-- If a buffer's word-sum is a multiple of `0xFFFF`, its check bytes are
`FF FF`. -/
theorem get_check_bytes_of_mod (v : List Nat) (h : wordSum v % 0xffff = 0) :
    egismoc_get_check_bytes v = [0xff, 0xff] := by
  simp [egismoc_get_check_bytes, egismoc_check_short, h]

/-- C9: the check value `0xFFFF − (word-sum mod 0xFFFF)` always lies in
`1..0xFFFF`; hence the two check bytes of a composed command are never both
zero, and when the pre-check word-sum is a multiple of `0xFFFF` the check
field is `FF FF`. -/
theorem check_short_range (value B : List Nat) :
    1 ≤ egismoc_check_short value ∧
    egismoc_check_short value ≤ 0xffff ∧
    ¬((egismoc_compose_cmd B).getD 8 0 = 0 ∧ (egismoc_compose_cmd B).getD 9 0 = 0) ∧
    (wordSum ( egismoc_write_prefix ++ [0x00, 0x00] ++ B) % 0xffff = 0 →
      egismoc_get_check_bytes ( egismoc_write_prefix ++ [0x00, 0x00] ++ B) = [0xff, 0xff]) := by
  refine ⟨?_, ?_, ?_, ?_⟩
  · unfold egismoc_check_short
    omega
  · unfold egismoc_check_short
    omega
  · simp only [egismoc_compose_cmd, egismoc_get_check_bytes, egismoc_check_short,
      egismoc_write_prefix, List.cons_append, List.nil_append, List.getD]
    simp
    omega
  · exact fun h => get_check_bytes_of_mod _ h

/-- Witness for C9 at a concrete body whose pre-check word-sum is exactly
`0xFFFF`: the check field becomes `FF FF`, and the composed command's two
check bytes are not both zero. -/
theorem check_short_range_witness :
    egismoc_get_check_bytes ( egismoc_write_prefix ++ [0x00, 0x00] ++ [113, 100])
      = [0xff, 0xff] ∧
    ¬((egismoc_compose_cmd [113, 100]).getD 8 0 = 0 ∧
      (egismoc_compose_cmd [113, 100]).getD 9 0 = 0) :=
  ⟨(check_short_range [] [113, 100]).2.2.2 (by decide),
   (check_short_range [] [113, 100]).2.2.1⟩

/-!
## Command builder: `egismoc_get_check_cmd` / `egismoc_get_delete_cmd`

The marker byte tables (`cmd_check_prefix`, `cmd_check_suffix`,
`cmd_delete_prefix`) live in the missing header `egismoc.h` and are opaque
device constants, so the builders take them as parameters.  The registry is
a list of PrintIds (`enrolled_ids`); per the registry invariant
`self->enrolled_num` equals its length.
-/

/-- First size field of the check command.  Mirrors the two `memset` writes
of `egismoc_get_check_cmd`: byte `0x00` (left over from `g_malloc0`) or
`0x01`, then the value byte (`memset` narrows its value argument to an
unsigned char, hence `% 256`). -/
def checkSize1 (n : Nat) : List Nat :=
  if 6 < n then [0x01, ((n - 7) * 0x20 + 0x09) % 256]
  else [0x00, ((n + 1) * 0x20 + 0x09) % 256]

/-- Second size field of the check command (same as `checkSize1` without
the `+ 0x09`). -/
def checkSize2 (n : Nat) : List Nat :=
  if 6 < n then [0x01, ((n - 7) * 0x20) % 256]
  else [0x00, ((n + 1) * 0x20) % 256]

/-- `egismoc_get_check_cmd`: body of the check command,
`00 00 | S1 | cmd_check_prefix | S2 | 32 × 0x00 | ids | cmd_check_suffix`.
The 32 zero bytes are the sentinel slot left over from `g_malloc0`
(`EGISMOC_CMD_CHECK_SEPARATOR_LENGTH`); each registry id contributes
exactly 32 bytes (`memcpy` of `EGISMOC_FINGERPRINT_DATA_SIZE`). -/
def egismoc_get_check_cmd (enrolled_ids : List (List Nat))
    ( cmd_check_prefix cmd_check_suffix : List Nat) : List Nat :=
  [0x00, 0x00]
    ++ checkSize1 enrolled_ids.length
    ++ cmd_check_prefix
    ++ checkSize2 enrolled_ids.length
    ++ List.replicate EGISMOC_CMD_CHECK_SEPARATOR_LENGTH 0x00
    ++ enrolled_ids.flatten
    ++ cmd_check_suffix

/-- `BuildCheckBody` as the claim words it: S1 and S2 occupy a single byte
when `N ≤ 6` (else `0x01` followed by the split byte).  Second definition
written from the spec's words, for comparison with the code's
`egismoc_get_check_cmd`. -/
def specBuildCheckBody (R : List (List Nat))
    ( cmd_check_prefix cmd_check_suffix : List Nat) : List Nat :=
  let n := R.length
  let s1 := if n ≤ 6 then [(n + 1) * 0x20 + 0x09] else [0x01, (n - 7) * 0x20 + 0x09]
  let s2 := if n ≤ 6 then [(n + 1) * 0x20] else [0x01, (n - 7) * 0x20]
  [0x00, 0x00] ++ s1 ++ cmd_check_prefix ++ s2
    ++ List.replicate 32 0x00 ++ R.flatten ++ cmd_check_suffix

/-- The ids actually emitted by `egismoc_get_delete_cmd`: the single
target's PrintId when a `delete_print` is given, else the whole registry
(`num_to_delete = (!delete_print) ? self->enrolled_num : 1`). -/
def deleteTargets (enrolled_ids : List (List Nat))
    (delete_print : Option (List Nat)) : List (List Nat) :=
  match delete_print with
  | some t => [t]
  | none => enrolled_ids

/-- First size field of the delete command (threshold `num_to_delete > 7`,
value `((num_to_delete - 8) * 0x20) + 0x07` on the split byte). -/
def deleteSize1 (k : Nat) : List Nat :=
  if 7 < k then [0x01, ((k - 8) * 0x20 + 0x07) % 256]
  else [0x00, (k * 0x20 + 0x07) % 256]

/-- Second size field of the delete command (without the `+ 0x07`). -/
def deleteSize2 (k : Nat) : List Nat :=
  if 7 < k then [0x01, ((k - 8) * 0x20) % 256]
  else [0x00, (k * 0x20) % 256]

/-- `egismoc_get_delete_cmd`: body of the delete command,
`00 00 | S1 | cmd_delete_prefix | S2 | ids`. -/
def egismoc_get_delete_cmd (enrolled_ids : List (List Nat))
    (delete_print : Option (List Nat)) ( cmd_delete_prefix : List Nat) : List Nat :=
  let ids := deleteTargets enrolled_ids delete_print
  [0x00, 0x00]
    ++ deleteSize1 ids.length
    ++ cmd_delete_prefix
    ++ deleteSize2 ids.length
    ++ ids.flatten

/-- A list of 32-byte ids flattens to `32 * count` bytes. -/
theorem flatten_length_const (R : List (List Nat)) (h : ∀ id ∈ R, id.length = 32) :
    R.flatten.length = 32 * R.length := by
  induction R with
  | nil => simp
  | cons a t ih =>
      simp only [List.flatten_cons, List.length_append, List.length_cons]
      rw [h a (by simp), ih (fun id hid => h id (by simp [hid]))]
      ring

/-- The check command's first size field is the two-byte big-endian
encoding of `32·(N+1) + 9` (for `N ≤ 14`). -/
theorem checkSize1_eq (n : Nat) (hn : n ≤ 14) :
    checkSize1 n = [(32 * (n + 1) + 9) / 256, (32 * (n + 1) + 9) % 256] := by
  unfold checkSize1
  split <;> simp <;> omega

/-- The check command's second size field is the two-byte big-endian
encoding of `32·(N+1)` (for `N ≤ 14`). -/
theorem checkSize2_eq (n : Nat) (hn : n ≤ 14) :
    checkSize2 n = [(32 * (n + 1)) / 256, (32 * (n + 1)) % 256] := by
  unfold checkSize2
  split <;> simp <;> omega

/-- The delete command's first size field is the two-byte big-endian
encoding of `32·k + 7` (for `k ≤ 14`). -/
theorem deleteSize1_eq (k : Nat) (hk : k ≤ 14) :
    deleteSize1 k = [(32 * k + 7) / 256, (32 * k + 7) % 256] := by
  unfold deleteSize1
  split <;> simp <;> omega

/-- The delete command's second size field is the two-byte big-endian
encoding of `32·k` (for `k ≤ 14`). -/
theorem deleteSize2_eq (k : Nat) (hk : k ≤ 14) :
    deleteSize2 k = [(32 * k) / 256, (32 * k) % 256] := by
  unfold deleteSize2
  split <;> simp <;> omega

theorem checkSize1_length (n : Nat) : (checkSize1 n).length = 2 := by
  unfold checkSize1
  split <;> rfl

theorem checkSize2_length (n : Nat) : (checkSize2 n).length = 2 := by
  unfold checkSize2
  split <;> rfl

theorem deleteSize1_length (k : Nat) : (deleteSize1 k).length = 2 := by
  unfold deleteSize1
  split <;> rfl

theorem deleteSize2_length (k : Nat) : (deleteSize2 k).length = 2 := by
  unfold deleteSize2
  split <;> rfl

/-- Counterexample to C2 as stated: for the empty registry (`N = 0 ≤ 6`) the
code still emits two bytes for each of S1 and S2 (a `0x00` pad byte then the
value byte), so the body differs from the spec-worded one-byte layout and
its length is `2 + 2 + cpl + 2 + 32 + 0 + csl`, not
`2 + 1 + cpl + 1 + 32 + 0 + csl`.  The marker tables are opaque constants
of the missing header; the discrepancy is independent of their contents, so
empty stand-ins are used. -/
theorem get_check_cmd_counterexample :
    egismoc_get_check_cmd [] [] [] ≠ specBuildCheckBody [] [] [] ∧
    (egismoc_get_check_cmd [] [] []).length ≠ 2 + 1 + 0 + 1 + 32 + 0 + 0 := by
  decide

/-- C2 as amended: S1 and S2 are always two bytes — the big-endian encoding
of `32·(N+1)+9` resp. `32·(N+1)` (high byte `0x00` when `N ≤ 6`, `0x01`
when `N > 6`) — and the body length is
`2 + 2 + check_prefix_len + 2 + 32 + 32·N + check_suffix_len`. -/
theorem get_check_cmd_spec (R : List (List Nat))
    ( cmd_check_prefix cmd_check_suffix : List Nat)
    (h32 : ∀ id ∈ R, id.length = 32) (hn : R.length ≤ 14) :
    egismoc_get_check_cmd R cmd_check_prefix cmd_check_suffix
      = [0x00, 0x00]
        ++ [(32 * (R.length + 1) + 9) / 256, (32 * (R.length + 1) + 9) % 256]
        ++ cmd_check_prefix
        ++ [(32 * (R.length + 1)) / 256, (32 * (R.length + 1)) % 256]
        ++ List.replicate 32 0x00 ++ R.flatten ++ cmd_check_suffix ∧
    (egismoc_get_check_cmd R cmd_check_prefix cmd_check_suffix).length
      = 2 + 2 + cmd_check_prefix.length + 2 + 32 + 32 * R.length
        + cmd_check_suffix.length := by
  constructor
  · unfold egismoc_get_check_cmd EGISMOC_CMD_CHECK_SEPARATOR_LENGTH
    rw [checkSize1_eq _ hn, checkSize2_eq _ hn]
  · simp [egismoc_get_check_cmd, List.length_append, checkSize1_length,
      checkSize2_length, EGISMOC_CMD_CHECK_SEPARATOR_LENGTH,
      flatten_length_const R h32]
    omega

/-- Witness for C2's amended theorem at a one-entry registry. -/
theorem get_check_cmd_spec_witness :
    (egismoc_get_check_cmd [List.replicate 32 0x41] [0x50] [0x51]).length
      = 2 + 2 + 1 + 2 + 32 + 32 * 1 + 1 :=
  (get_check_cmd_spec [List.replicate 32 0x41] [0x50] [0x51]
    (by simp) (by simp)).2

/-- C3: the delete body is `00 00`, then S1 (the two-byte big-endian
encoding of `k·0x20 + 0x07`, split with high byte `0x01` when `k > 7`),
the delete prefix, S2 (same for `k·0x20`), followed by exactly the k
32-byte PrintIds in body order — the chosen target's ID for a single
delete, or all of the registry in registry order for clear-all. -/
theorem get_delete_cmd_spec (R : List (List Nat)) (target : Option (List Nat))
    ( cmd_delete_prefix : List Nat)
    (h32 : ∀ id ∈ deleteTargets R target, id.length = 32)
    (hk : (deleteTargets R target).length ≤ 14) :
    egismoc_get_delete_cmd R target cmd_delete_prefix
      = [0x00, 0x00]
        ++ [(32 * (deleteTargets R target).length + 7) / 256,
            (32 * (deleteTargets R target).length + 7) % 256]
        ++ cmd_delete_prefix
        ++ [(32 * (deleteTargets R target).length) / 256,
            (32 * (deleteTargets R target).length) % 256]
        ++ (deleteTargets R target).flatten ∧
    (egismoc_get_delete_cmd R target cmd_delete_prefix).length
      = 6 + cmd_delete_prefix.length + 32 * (deleteTargets R target).length ∧
    (egismoc_get_delete_cmd R target cmd_delete_prefix).drop
        (6 + cmd_delete_prefix.length)
      = (deleteTargets R target).flatten ∧
    (∀ t, target = some t → deleteTargets R target = [t]) ∧
    (target = none → deleteTargets R target = R) := by
  have hb : egismoc_get_delete_cmd R target cmd_delete_prefix
      = ([0x00, 0x00] ++ deleteSize1 (deleteTargets R target).length
          ++ cmd_delete_prefix ++ deleteSize2 (deleteTargets R target).length)
        ++ (deleteTargets R target).flatten := by
    simp [egismoc_get_delete_cmd]
  have hlen : ([0x00, 0x00] ++ deleteSize1 (deleteTargets R target).length
      ++ cmd_delete_prefix ++ deleteSize2 (deleteTargets R target).length).length
      = 6 + cmd_delete_prefix.length := by
    simp [List.length_append, deleteSize1_length, deleteSize2_length]
    omega
  refine ⟨?_, ?_, ?_, ?_, ?_⟩
  · rw [hb, deleteSize1_eq _ hk, deleteSize2_eq _ hk]
  · rw [hb]
    simp [List.length_append, deleteSize1_length, deleteSize2_length,
      flatten_length_const _ h32]
    omega
  · rw [hb, ← hlen]
    exact List.drop_left _ _
  · intro t ht
    simp [deleteTargets, ht]
  · intro ht
    simp [deleteTargets, ht]

/-- Witness for C3 at a two-entry registry with `target = none`
(clear-all). -/
theorem get_delete_cmd_spec_witness :
    (egismoc_get_delete_cmd [List.replicate 32 0x05, List.replicate 32 0x06]
      none [0x09]).length = 6 + 1 + 32 * 2 :=
  (get_delete_cmd_spec [List.replicate 32 0x05, List.replicate 32 0x06]
    none [0x09] (by simp [deleteTargets]) (by simp [deleteTargets])).2.1

/-!
## Response classification and the transfer engine's short-reply guard
-/

/-- `egismoc_validate_response_prefix`: `memcmp` of `valid_prefix_len`
bytes at the fixed offset
`egismoc_read_prefix_len + EGISMOC_CHECK_BYTES_LENGTH` (= 8).  `buffer_in`
models the allocated receive buffer (of size
`EGISMOC_USB_IN_RECV_LENGTH`); the `buffer_in_len` argument is declared
and ignored, exactly as in the C function. -/
def egismoc_validate_response_prefix (buffer_in : List Nat) (buffer_in_len : Nat)
    ( valid_prefix : List Nat) : Bool :=
  (buffer_in.drop (egismoc_read_prefix_len + EGISMOC_CHECK_BYTES_LENGTH)).take
      valid_prefix.length
    == valid_prefix

/-- `egismoc_validate_response_suffix`: `memcmp` of `valid_suffix_len`
bytes ending at offset `buffer_in_len`. -/
def egismoc_validate_response_suffix (buffer_in : List Nat) (buffer_in_len : Nat)
    (valid_suffix : List Nat) : Bool :=
  (buffer_in.drop (buffer_in_len - valid_suffix.length)).take valid_suffix.length
    == valid_suffix

/-- The short-reply guard of `egismoc_cmd_receive_cb` (with command data
present): the transfer is failed with a general error exactly when
`actual_length < egismoc_read_prefix_len`; otherwise the reply is delivered
to the step callback. -/
def egismoc_cmd_receive_accepts (actual_length : Nat) : Bool :=
  decide (egismoc_read_prefix_len ≤ actual_length)

/-- C10: prefix classification is independent of the reported reply length
(the `buffer_in_len` argument is ignored); the receive guard accepts any
reply of length ≥ 6; and for a length in `[6, 8 + marker_len)` the
classification depends on buffer positions at or beyond the bytes actually
received — two allocated buffers agreeing on the first `len` bytes can
classify differently. -/
theorem validate_response_len_independent (buffer_in m : List Nat)
    (l1 l2 len : Nat) (h6 : 6 ≤ len) (hlt : len < 8 + m.length) (hm : m ≠ []) :
    egismoc_validate_response_prefix buffer_in l1 m
      = egismoc_validate_response_prefix buffer_in l2 m ∧
    egismoc_cmd_receive_accepts len = true ∧
    ∃ b1 b2 : List Nat, b1.take len = b2.take len ∧
      egismoc_validate_response_prefix b1 len m
        ≠ egismoc_validate_response_prefix b2 len m := by
  refine ⟨rfl, ?_, ?_⟩
  · simp only [egismoc_cmd_receive_accepts, egismoc_read_prefix_len,
      decide_eq_true_eq]
    exact h6
  · refine ⟨List.replicate 8 0 ++ m, (List.replicate 8 0 ++ m).take len, ?_, ?_⟩
    · rw [List.take_take, Nat.min_self]
    · have hm' : 0 < m.length := List.length_pos.mpr hm
      have hdrop : (List.replicate 8 (0 : Nat) ++ m).drop 8 = m := by
        have := List.drop_left (List.replicate 8 (0 : Nat)) m
        simpa using this
      have hv1 : egismoc_validate_response_prefix (List.replicate 8 0 ++ m) len m
          = true := by
        unfold egismoc_validate_response_prefix egismoc_read_prefix_len
          EGISMOC_CHECK_BYTES_LENGTH
        rw [hdrop, List.take_length m]
        simp
      have hv2 : egismoc_validate_response_prefix
          ((List.replicate 8 0 ++ m).take len) len m = false := by
        unfold egismoc_validate_response_prefix egismoc_read_prefix_len
          EGISMOC_CHECK_BYTES_LENGTH
        rw [List.drop_take, hdrop, List.take_take]
        have hlen : (m.take (min m.length (len - 8))).length < m.length := by
          rw [List.length_take]
          omega
        simp only [beq_eq_false_iff_ne, ne_eq]
        intro hEq
        rw [hEq] at hlen
        omega
      rw [hv1, hv2]
      simp

/-- Witness for C10 at a one-byte marker and a reply length of 6. -/
theorem validate_response_len_independent_witness :
    egismoc_cmd_receive_accepts 6 = true ∧
    ∃ b1 b2 : List Nat, b1.take 6 = b2.take 6 ∧
      egismoc_validate_response_prefix b1 6 [0xaa]
        ≠ egismoc_validate_response_prefix b2 6 [0xaa] :=
  ⟨(validate_response_len_independent [] [0xaa] 0 99 6 (by decide) (by decide)
      (by decide)).2.1,
   (validate_response_len_independent [] [0xaa] 0 99 6 (by decide) (by decide)
      (by decide)).2.2⟩

/-!
## Enrolled-ID registry: `egismoc_list_cb`
-/

/-- Inner loop of `egismoc_list_cb`: copies `count` bytes starting at
`buffer_in_pos` into a fresh print id. -/
def listReadId (buffer_in : List Nat) (pos : Nat) : Nat → List Nat
  | 0 => []
  | c + 1 => buffer_in.getD pos 0 :: listReadId buffer_in (pos + 1) c

/-- Outer loop of `egismoc_list_cb`: for `print_num = 0 .. n-1`, reads the
32-byte id starting at `14 + 32 * print_num` and appends it to the
registry. -/
def listLoop (buffer_in : List Nat) : Nat → List (List Nat)
  | 0 => []
  | n + 1 =>
      listLoop buffer_in n
        ++ [listReadId buffer_in (14 + EGISMOC_FINGERPRINT_DATA_SIZE * n)
              EGISMOC_FINGERPRINT_DATA_SIZE]

/-- `egismoc_list_cb` (no-error path): returns the new `enrolled_num` and
the registry contents.  A reply shorter than `16 + 32` bytes leaves the
fresh registry empty with `enrolled_num = 0`; otherwise
`enrolled_num = (length_in - 16) / 32` ids are read. -/
def egismoc_list_cb (buffer_in : List Nat) (length_in : Nat) :
    Nat × List (List Nat) :=
  if length_in < 16 + EGISMOC_FINGERPRINT_DATA_SIZE then (0, [])
  else
    let n := (length_in - 16) / EGISMOC_FINGERPRINT_DATA_SIZE
    (n, listLoop buffer_in n)

theorem listReadId_eq_slice (b : List Nat) (pos c : Nat) (h : pos + c ≤ b.length) :
    listReadId b pos c = (b.drop pos).take c := by
  induction c generalizing pos with
  | zero => simp [listReadId]
  | succ c ih =>
      have hpos : pos < b.length := by omega
      rw [listReadId, List.drop_eq_getElem_cons hpos, List.take_succ_cons,
        List.getD_eq_getElem b 0 hpos, ih (pos + 1) (by omega)]

theorem listReadId_length (b : List Nat) (pos c : Nat) :
    (listReadId b pos c).length = c := by
  induction c generalizing pos with
  | zero => rfl
  | succ c ih => simp [listReadId, ih]

theorem listLoop_length (b : List Nat) (n : Nat) : (listLoop b n).length = n := by
  induction n with
  | zero => rfl
  | succ n ih => simp [listLoop, ih]

theorem listLoop_eq_map (b : List Nat) (n : Nat) :
    listLoop b n
      = (List.range n).map
          (fun i => listReadId b (14 + EGISMOC_FINGERPRINT_DATA_SIZE * i)
            EGISMOC_FINGERPRINT_DATA_SIZE) := by
  induction n with
  | zero => rfl
  | succ n ih =>
      rw [listLoop, ih, List.range_succ, List.map_append]
      rfl

/-- C4: for a list reply of length `L`: if `L < 48` the registry becomes
empty with `enrolled_num = 0`; otherwise `enrolled_num = (L - 16) / 32`
and the i-th registry entry equals the 32 reply bytes at offset
`14 + 32·i`; in all cases `enrolled_num` equals the number of stored
entries. -/
theorem list_cb_spec (buffer_in : List Nat) (length_in : Nat)
    (hlen : length_in ≤ buffer_in.length) :
    (egismoc_list_cb buffer_in length_in).2.length
      = (egismoc_list_cb buffer_in length_in).1 ∧
    (length_in < 48 → egismoc_list_cb buffer_in length_in = (0, [])) ∧
    (48 ≤ length_in →
      (egismoc_list_cb buffer_in length_in).1 = (length_in - 16) / 32 ∧
      (egismoc_list_cb buffer_in length_in).2
        = (List.range ((length_in - 16) / 32)).map
            (fun i => (buffer_in.drop (14 + 32 * i)).take 32)) := by
  refine ⟨?_, ?_, ?_⟩
  · unfold egismoc_list_cb EGISMOC_FINGERPRINT_DATA_SIZE
    split
    · rfl
    · simp [listLoop_length]
  · intro h
    unfold egismoc_list_cb EGISMOC_FINGERPRINT_DATA_SIZE
    split
    · rfl
    · omega
  · intro h
    unfold egismoc_list_cb EGISMOC_FINGERPRINT_DATA_SIZE
    split
    · omega
    · refine ⟨rfl, ?_⟩
      have hdiv : 32 * ((length_in - 16) / 32) ≤ length_in - 16 := by omega
      dsimp only
      rw [listLoop_eq_map]
      refine List.map_congr_left fun i hi => ?_
      rw [List.mem_range] at hi
      unfold EGISMOC_FINGERPRINT_DATA_SIZE
      exact listReadId_eq_slice _ _ _ (by omega)

/-- Witness for C4 on a concrete 48-byte reply holding one id. -/
theorem list_cb_spec_witness :
    (egismoc_list_cb (List.replicate 80 0x07) 48).1 = (48 - 16) / 32 ∧
    (egismoc_list_cb (List.replicate 80 0x07) 48).2
      = (List.range ((48 - 16) / 32)).map
          (fun i => ((List.replicate 80 0x07).drop (14 + 32 * i)).take 32) :=
  (list_cb_spec (List.replicate 80 0x07) 48 (by simp)).2.2 (by omega)

/-!
## Operation state machines

Each public operation runs an `FpiSsm` whose steps either send a composed
command and advance on the generic continuation, or install a bespoke
continuation.  We model a run as a function from the device's replies
(oracle inputs) to the sequence of commands sent plus the reported outcome.
Wait-for-finger steps use the interrupt endpoint and send no command, so
they do not appear in the trace.  Reply classification uses the real
validators above; the opaque response marker tables of the missing header
are parameters.
-/

/-- The commands a state machine can send (the `delete` payload records how
many ids it carries). -/
inductive Cmd where
  | list
  | fwVersion
  | sensorReset
  | sensorEnroll
  | sensorIdentify
  | sensorCheck
  | sensorStartCapture
  | readCapture
  | enrollStarting
  | commitStarting
  | newPrint
  | check
  | delete (k : Nat)
deriving DecidableEq, Repr

/-- How an operation completes toward the framework (`waiting` = the
machine is still blocked on a device event). -/
inductive OpOutcome where
  | ok
  | errGeneral
  | errProto
  | errDataInvalid
  | errDataDuplicate
  | errDataFull
  | errDataNotFound
  | waiting
deriving DecidableEq, Repr

/-- What `egismoc_enroll_status_report` reports for a capture reply. -/
inductive EnrollReport where
  | partialOk (stage : Nat)
  | retryCenterFinger
  | retryRemoveFingerDirty
  | retryRemoveFingerUnknown
deriving DecidableEq, Repr

/-- The five response marker tables consulted by `egismoc_read_capture_cb`
(`rsp_read_success_prefix/suffix`, `rsp_read_offcenter_prefix/suffix`,
`rsp_read_dirty_prefix`); opaque constants of the missing header. -/
structure CaptureMarkers where
  okP : List Nat
  okS : List Nat
  offP : List Nat
  offS : List Nat
  dirtyP : List Nat

/-- `egismoc_read_capture_cb` (no-error path), combined with the
stage-counter handling of `egismoc_enroll_status_report`: returns the new
stage, the report, and whether the machine advances toward commit
(`stage == EGISMOC_ENROLL_TIMES` after the report) instead of jumping back
to `ENROLL_CAPTURE_SENSOR_RESET`. -/
def egismoc_read_capture_cb (stage T : Nat) (buffer_in : List Nat)
    (length_in : Nat) (M : CaptureMarkers) : Nat × EnrollReport × Bool :=
  if egismoc_validate_response_prefix buffer_in length_in M.okP
      && egismoc_validate_response_suffix buffer_in length_in M.okS then
    (stage + 1, EnrollReport.partialOk (stage + 1), decide (stage + 1 = T))
  else
    let report :=
      if egismoc_validate_response_prefix buffer_in length_in M.offP
          && egismoc_validate_response_suffix buffer_in length_in M.offS then
        EnrollReport.retryCenterFinger
      else if egismoc_validate_response_prefix buffer_in length_in M.dirtyP then
        EnrollReport.retryRemoveFingerDirty
      else
        EnrollReport.retryRemoveFingerUnknown
    (stage, report, decide (stage = T))

/-- The enroll capture loop
(`ENROLL_CAPTURE_SENSOR_RESET .. ENROLL_CAPTURE_READ_RESPONSE`, then either
`ENROLL_COMMIT_START`/`ENROLL_COMMIT`/`ENROLL_COMMIT_SENSOR_RESET`/
`ENROLL_COMPLETE` or a jump back): consumes one capture reply per
iteration. -/
def egismoc_enroll_capture_loop (T : Nat) (M : CaptureMarkers) :
    Nat → List (List Nat × Nat) → List Cmd → List Cmd × OpOutcome
  | _, [], trace => (trace, OpOutcome.waiting)
  | stage, r :: rest, trace =>
      let trace' := trace ++ [Cmd.sensorReset, Cmd.sensorStartCapture, Cmd.readCapture]
      let s := egismoc_read_capture_cb stage T r.1 r.2 M
      if s.2.2 then
        (trace' ++ [Cmd.commitStarting, Cmd.newPrint, Cmd.sensorReset], OpOutcome.ok)
      else
        egismoc_enroll_capture_loop T M s.1 rest trace'

/-- A run of the enroll state machine (`egismoc_enroll_run_state`), driven
by the oracle replies: the list reply of the registry refresh
(`ENROLL_GET_ENROLLED_IDS`), the check reply (`ENROLL_CHECK`, classified
against `rsp_check_not_yet_enrolled_prefix` by `egismoc_enroll_check_cb`),
and one reply per capture attempt.  `T` is the compile-time constant
`EGISMOC_ENROLL_TIMES`. -/
def egismoc_enroll_run (listReply checkReply : List Nat × Nat)
    ( rsp_check_not_yet_enrolled_prefix : List Nat)
    (captureReplies : List (List Nat × Nat)) (M : CaptureMarkers) (T : Nat) :
    List Cmd × OpOutcome :=
  let n := (egismoc_list_cb listReply.1 listReply.2).1
  if EGISMOC_MAX_ENROLL_NUM ≤ n then
    ([Cmd.list], OpOutcome.errDataFull)
  else
    let trace := [Cmd.list, Cmd.sensorReset, Cmd.sensorEnroll, Cmd.sensorCheck,
      Cmd.check]
    if egismoc_validate_response_prefix checkReply.1 checkReply.2
        rsp_check_not_yet_enrolled_prefix then
      egismoc_enroll_capture_loop T M 0 captureReplies (trace ++ [Cmd.enrollStarting])
    else
      (trace, OpOutcome.errDataDuplicate)

/-- The check-reply markers consulted by `egismoc_identify_check_cb`
(`rsp_identify_match_prefix/suffix`, `rsp_identify_notmatch_prefix`). -/
structure IdentifyMarkers where
  matchP : List Nat
  matchS : List Nat
  notmatchP : List Nat

/-- A run of the identify/verify state machine
(`egismoc_identify_run_state`): registry refresh, empty-registry guard,
sensor commands, check, final sensor reset and completion.  Match reporting
to the framework (gallery search / verify compare) happens on the `ok`
paths and sends no further command. -/
def egismoc_identify_run (listReply checkReply : List Nat × Nat)
    (M : IdentifyMarkers) : List Cmd × OpOutcome :=
  let n := (egismoc_list_cb listReply.1 listReply.2).1
  if n = 0 then
    ([Cmd.list], OpOutcome.errDataNotFound)
  else
    let trace := [Cmd.list, Cmd.sensorReset, Cmd.sensorIdentify, Cmd.sensorCheck,
      Cmd.check]
    if egismoc_validate_response_prefix checkReply.1 checkReply.2 M.matchP
        && egismoc_validate_response_suffix checkReply.1 checkReply.2 M.matchS then
      (trace ++ [Cmd.sensorReset], OpOutcome.ok)
    else if egismoc_validate_response_prefix checkReply.1 checkReply.2
        M.notmatchP then
      (trace ++ [Cmd.sensorReset], OpOutcome.ok)
    else
      (trace, OpOutcome.errProto)

/-- A run of the clear-storage operation: `egismoc_clear_storage` first
checks the *cached* `self->enrolled_num` (left over from the previous
operation) and completes with data-not-found if it is zero; only then does
the state machine refresh the registry (`CLEAR_STORAGE_GET_ENROLLED_IDS_BEFORE`),
send the delete command built from the refreshed registry
(`CLEAR_STORAGE_CLEAR`, reply classified against
`rsp_delete_success_prefix`), refresh again, and require the second refresh
to report zero (`CLEAR_STORAGE_COMPLETE`). -/
def egismoc_clear_storage_run (cached_enrolled_num : Nat)
    (listReply1 deleteReply : List Nat × Nat)
    ( rsp_delete_success_prefix : List Nat) (listReply2 : List Nat × Nat) :
    List Cmd × OpOutcome :=
  if cached_enrolled_num = 0 then
    ([], OpOutcome.errDataNotFound)
  else
    let n1 := (egismoc_list_cb listReply1.1 listReply1.2).1
    let trace := [Cmd.list, Cmd.delete n1]
    if egismoc_validate_response_prefix deleteReply.1 deleteReply.2
        rsp_delete_success_prefix then
      let n2 := (egismoc_list_cb listReply2.1 listReply2.2).1
      if n2 = 0 then (trace ++ [Cmd.list], OpOutcome.ok)
      else (trace ++ [Cmd.list], OpOutcome.errProto)
    else
      (trace, OpOutcome.errProto)

/-- C7: the stage counter advances exactly on a reply carrying both the
success prefix and the success suffix (with progress reported); any other
reply is a retry report that leaves the stage unchanged and, while the
stage is below `EGISMOC_ENROLL_TIMES`, jumps back to the capture
sensor-reset step; the machine advances past the capture loop exactly when
the (updated) stage equals `EGISMOC_ENROLL_TIMES`. -/
theorem read_capture_cb_spec (stage T : Nat) (buffer_in : List Nat)
    (length_in : Nat) (M : CaptureMarkers) :
    (( egismoc_validate_response_prefix buffer_in length_in M.okP
        && egismoc_validate_response_suffix buffer_in length_in M.okS) = true →
      (egismoc_read_capture_cb stage T buffer_in length_in M).1 = stage + 1 ∧
      (egismoc_read_capture_cb stage T buffer_in length_in M).2.1
        = EnrollReport.partialOk (stage + 1)) ∧
    (( egismoc_validate_response_prefix buffer_in length_in M.okP
        && egismoc_validate_response_suffix buffer_in length_in M.okS) = false →
      (egismoc_read_capture_cb stage T buffer_in length_in M).1 = stage ∧
      ((egismoc_read_capture_cb stage T buffer_in length_in M).2.1
          = EnrollReport.retryCenterFinger ∨
        (egismoc_read_capture_cb stage T buffer_in length_in M).2.1
          = EnrollReport.retryRemoveFingerDirty ∨
        (egismoc_read_capture_cb stage T buffer_in length_in M).2.1
          = EnrollReport.retryRemoveFingerUnknown) ∧
      (stage < T →
        (egismoc_read_capture_cb stage T buffer_in length_in M).2.2 = false)) ∧
    ((egismoc_read_capture_cb stage T buffer_in length_in M).2.2 = true ↔
      (egismoc_read_capture_cb stage T buffer_in length_in M).1 = T) := by
  refine ⟨?_, ?_, ?_⟩
  · intro h
    simp [egismoc_read_capture_cb, h]
  · intro h
    unfold egismoc_read_capture_cb
    rw [if_neg (by simp [h])]
    dsimp only
    refine ⟨rfl, ?_, ?_⟩
    · split
      · exact Or.inl rfl
      · split
        · exact Or.inr (Or.inl rfl)
        · exact Or.inr (Or.inr rfl)
    · intro hlt
      simp only [decide_eq_false_iff_not]
      omega
  · unfold egismoc_read_capture_cb
    split
    · simp
    · simp

/-- Witness for C7 on a concrete off-center reply (markers chosen so the
success compare fails and the off-center compare succeeds) at stage 0 of a
2-stage enrollment. -/
theorem read_capture_cb_spec_witness :
    (egismoc_read_capture_cb 0 2 (List.replicate 8 0 ++ [0x20, 0x21]) 10
        ⟨[0x11], [0x12], [0x20], [0x21], [0x13]⟩).1 = 0 ∧
    ((egismoc_read_capture_cb 0 2 (List.replicate 8 0 ++ [0x20, 0x21]) 10
        ⟨[0x11], [0x12], [0x20], [0x21], [0x13]⟩).2.1
        = EnrollReport.retryCenterFinger ∨
      (egismoc_read_capture_cb 0 2 (List.replicate 8 0 ++ [0x20, 0x21]) 10
        ⟨[0x11], [0x12], [0x20], [0x21], [0x13]⟩).2.1
        = EnrollReport.retryRemoveFingerDirty ∨
      (egismoc_read_capture_cb 0 2 (List.replicate 8 0 ++ [0x20, 0x21]) 10
        ⟨[0x11], [0x12], [0x20], [0x21], [0x13]⟩).2.1
        = EnrollReport.retryRemoveFingerUnknown) ∧
    (egismoc_read_capture_cb 0 2 (List.replicate 8 0 ++ [0x20, 0x21]) 10
        ⟨[0x11], [0x12], [0x20], [0x21], [0x13]⟩).2.2 = false := by
  have h := (read_capture_cb_spec 0 2 (List.replicate 8 0 ++ [0x20, 0x21]) 10
    ⟨[0x11], [0x12], [0x20], [0x21], [0x13]⟩).2.1 (by decide)
  exact ⟨h.1, h.2.1, h.2.2 (by decide)⟩

/-- C6: when the reply to the enroll check command does not begin with the
not-yet-enrolled marker, the run reports data-duplicate and neither a
commit-start nor a new-print command is ever sent. -/
theorem enroll_duplicate_aborts (listReply checkReply : List Nat × Nat)
    ( rsp_check_not_yet_enrolled_prefix : List Nat)
    (captureReplies : List (List Nat × Nat)) (M : CaptureMarkers) (T : Nat)
    (hn : (egismoc_list_cb listReply.1 listReply.2).1 < EGISMOC_MAX_ENROLL_NUM)
    (hchk : egismoc_validate_response_prefix checkReply.1 checkReply.2
      rsp_check_not_yet_enrolled_prefix = false) :
    egismoc_enroll_run listReply checkReply rsp_check_not_yet_enrolled_prefix
        captureReplies M T
      = ([Cmd.list, Cmd.sensorReset, Cmd.sensorEnroll, Cmd.sensorCheck, Cmd.check],
         OpOutcome.errDataDuplicate) ∧
    Cmd.commitStarting ∉ (egismoc_enroll_run listReply checkReply
      rsp_check_not_yet_enrolled_prefix captureReplies M T).1 ∧
    Cmd.newPrint ∉ (egismoc_enroll_run listReply checkReply
      rsp_check_not_yet_enrolled_prefix captureReplies M T).1 := by
  have hrun : egismoc_enroll_run listReply checkReply
      rsp_check_not_yet_enrolled_prefix captureReplies M T
      = ([Cmd.list, Cmd.sensorReset, Cmd.sensorEnroll, Cmd.sensorCheck, Cmd.check],
         OpOutcome.errDataDuplicate) := by
    unfold egismoc_enroll_run
    rw [if_neg (by omega), hchk]
    rfl
  refine ⟨hrun, ?_, ?_⟩ <;> rw [hrun] <;> decide

/-- Witness for C6: an empty registry (short list reply) and a check reply
whose bytes do not match the not-yet-enrolled marker. -/
theorem enroll_duplicate_aborts_witness :
    (egismoc_enroll_run ([], 0) (List.replicate 9 0, 9) [0x55] []
        ⟨[0x11], [0x12], [0x20], [0x21], [0x13]⟩ 10).2
      = OpOutcome.errDataDuplicate :=
  congrArg Prod.snd
    (enroll_duplicate_aborts ([], 0) (List.replicate 9 0, 9) [0x55] []
      ⟨[0x11], [0x12], [0x20], [0x21], [0x13]⟩ 10 (by decide) (by decide)).1

/-- C8: when the refreshed enrollment count is at least
`EGISMOC_MAX_ENROLL_NUM` (10), enroll completes with data-full right after
the registry refresh: the only command ever sent is the list command, so no
sensor command reaches the device. -/
theorem enroll_full_aborts (listReply checkReply : List Nat × Nat)
    ( rsp_check_not_yet_enrolled_prefix : List Nat)
    (captureReplies : List (List Nat × Nat)) (M : CaptureMarkers) (T : Nat)
    (hn : EGISMOC_MAX_ENROLL_NUM ≤ (egismoc_list_cb listReply.1 listReply.2).1) :
    egismoc_enroll_run listReply checkReply rsp_check_not_yet_enrolled_prefix
        captureReplies M T
      = ([Cmd.list], OpOutcome.errDataFull) ∧
    ∀ c ∈ (egismoc_enroll_run listReply checkReply
        rsp_check_not_yet_enrolled_prefix captureReplies M T).1,
      c = Cmd.list := by
  have hrun : egismoc_enroll_run listReply checkReply
      rsp_check_not_yet_enrolled_prefix captureReplies M T
      = ([Cmd.list], OpOutcome.errDataFull) := by
    unfold egismoc_enroll_run
    rw [if_pos hn]
  refine ⟨hrun, ?_⟩
  rw [hrun]
  intro c hc
  simpa using hc

/-- Witness for C8: a list reply announcing ten enrolled prints
(`length_in = 16 + 32·10`). -/
theorem enroll_full_aborts_witness :
    egismoc_enroll_run ([], 336) ([], 0) [] []
        ⟨[0x11], [0x12], [0x20], [0x21], [0x13]⟩ 10
      = ([Cmd.list], OpOutcome.errDataFull) :=
  (enroll_full_aborts ([], 336) ([], 0) [] []
    ⟨[0x11], [0x12], [0x20], [0x21], [0x13]⟩ 10 (by decide)).1

/-- Counterexample to C5 as stated: clear-storage with a non-zero *cached*
count whose in-operation registry refresh returns `N = 0` still sends a
delete command (with zero ids) and completes successfully — not with
data-not-found.  Inputs: cached count 5, first refresh reply empty
(`(egismoc_list_cb [] 0).1 = 0`), a delete reply matching the (stand-in)
delete-success marker, second refresh empty. -/
theorem clear_storage_refresh_counterexample :
    (egismoc_list_cb [] 0).1 = 0 ∧
    Cmd.delete 0
      ∈ (egismoc_clear_storage_run 5 ([], 0)
          (List.replicate 8 0 ++ [0x90], 9) [0x90] ([], 0)).1 ∧
    (egismoc_clear_storage_run 5 ([], 0)
        (List.replicate 8 0 ++ [0x90], 9) [0x90] ([], 0)).2
      ≠ OpOutcome.errDataNotFound := by
  decide

/-- C5 as amended: identify/verify complete with data-not-found before any
sensor command when the refreshed registry is empty; clear-storage
completes with data-not-found before any command only when the enrollment
count cached from before the operation is zero; with a non-zero cached
count a delete command (carrying the refreshed count of ids) is always
sent. -/
theorem empty_registry_guard (listReply checkReply : List Nat × Nat)
    (M : IdentifyMarkers) (cached : Nat) (listReply1 deleteReply : List Nat × Nat)
    ( rsp_delete_success_prefix : List Nat) (listReply2 : List Nat × Nat) :
    ((egismoc_list_cb listReply.1 listReply.2).1 = 0 →
      egismoc_identify_run listReply checkReply M
        = ([Cmd.list], OpOutcome.errDataNotFound)) ∧
    (cached = 0 →
      egismoc_clear_storage_run cached listReply1 deleteReply
          rsp_delete_success_prefix listReply2
        = ([], OpOutcome.errDataNotFound)) ∧
    (cached ≠ 0 →
      Cmd.delete ((egismoc_list_cb listReply1.1 listReply1.2).1)
        ∈ (egismoc_clear_storage_run cached listReply1 deleteReply
            rsp_delete_success_prefix listReply2).1) := by
  refine ⟨?_, ?_, ?_⟩
  · intro h
    unfold egismoc_identify_run
    rw [if_pos h]
  · intro h
    unfold egismoc_clear_storage_run
    rw [if_pos h]
  · intro h
    unfold egismoc_clear_storage_run
    rw [if_neg h]
    dsimp only
    split
    · split <;> simp
    · simp

/-- Witness for C5's amended theorem: an empty refreshed registry for
identify, a zero cached count for clear-storage, and (for the third part) a
non-zero cached count with a failing delete reply. -/
theorem empty_registry_guard_witness :
    egismoc_identify_run ([], 0) ([], 0) ⟨[1], [2], [3]⟩
      = ([Cmd.list], OpOutcome.errDataNotFound) ∧
    egismoc_clear_storage_run 0 ([], 0) ([], 0) [4] ([], 0)
      = ([], OpOutcome.errDataNotFound) ∧
    Cmd.delete 0 ∈ (egismoc_clear_storage_run 3 ([], 0) ([], 0) [4] ([], 0)).1 :=
  ⟨(empty_registry_guard ([], 0) ([], 0) ⟨[1], [2], [3]⟩ 0 ([], 0) ([], 0) [4]
      ([], 0)).1 (by decide),
   (empty_registry_guard ([], 0) ([], 0) ⟨[1], [2], [3]⟩ 0 ([], 0) ([], 0) [4]
      ([], 0)).2.1 (by decide),
   (empty_registry_guard ([], 0) ([], 0) ⟨[1], [2], [3]⟩ 3 ([], 0) ([], 0) [4]
      ([], 0)).2.2 (by decide)⟩

end Egismoc
